import Mathlib

/-!
Shallow embedding of the ttclock time-tracking automation.

The embedding follows src/ttclock/automation.py, src/ttclock/utils.py and
src/ttclock/cli.py.  Browser pages are modelled as pure data (the DOM facts
the code reads: detail-table rows, clock buttons and their disabled
attribute, and whether the bounded waits time out); side effects
(button clicks, notification call sites, sleeps) are returned as explicit
effect lists, and raised exceptions are modelled with Except.
-/

/-- A call to utils.send_notification recorded at its call site
(priority, tags, force flag), before the delivery gating inside
send_notification is applied. -/
structure NotifCall where
  priority : String
  tags : List String
  force : Bool
deriving DecidableEq

/-- The outbound HTTP delivery request that utils.send_notification issues
when it is not suppressed.  A later delivery failure is swallowed by the
code, so issuing the request is the observable event. -/
structure Delivery where
  message : String
  priority : String
  tagsHeader : String
deriving DecidableEq

/-- utils.send_notification (utils.py lines 173 to 208): returns the delivery
request made, if any.  An empty topic models a missing or empty NTFY topic
(Python falsiness of None and of the empty string coincide here). -/
def send_notification (message priority : String) (tags : List String)
    (force : Bool) (ntfy_topic : String) (notifications_enabled : Bool) :
    Option Delivery :=
  if ntfy_topic = "" then none
  else if notifications_enabled = false ∧ force = false then none
  else some { message := message, priority := priority,
              tagsHeader := if tags = [] then "time" else String.intercalate "," tags }

/-- TimeCheckAutomation constructor, automation.py line 14: the ntfy topic
is read from the environment only when quiet is false; in quiet mode it is
set to the empty string. -/
def initNtfyTopic (quiet : Bool) (envTopic : Option String) : String :=
  if quiet = false then envTopic.getD "" else ""

/-- TimeCheckAutomation constructor, automation.py line 19:
notifications_enabled is true when not quiet and the topic is nonempty. -/
def initNotificationsEnabled (quiet : Bool) (ntfy_topic : String) : Bool :=
  !quiet && ntfy_topic != ""

/-- A live browser handle; closeFails says whether its close method raises. -/
structure BrowserHandle where
  closeFails : Bool
deriving DecidableEq

/-- A live playwright engine handle; stopFails says whether stop raises. -/
structure PlaywrightHandle where
  stopFails : Bool
deriving DecidableEq

/-- The two mutable references of TimeCheckAutomation that cleanup touches. -/
structure SessionState where
  browser : Option BrowserHandle
  playwright : Option PlaywrightHandle
deriving DecidableEq

/-- Body of the try block inside cleanup (automation.py lines 32 to 38),
entered only when the browser reference is non-null.  The second component
is the exception raised inside the try, which the except clause always
catches.  Mutations made before the raise persist, as in Python. -/
def cleanupTry (s : SessionState) (b : BrowserHandle) :
    SessionState × Option String :=
  if b.closeFails then (s, some "browser close failed")
  else
    let s1 : SessionState := { s with browser := none }
    match s1.playwright with
    | none => (s1, none)
    | some p =>
      if p.stopFails then (s1, some "playwright stop failed")
      else ({ browser := none, playwright := none }, none)

/-- TimeCheckAutomation.cleanup (automation.py lines 29 to 40).  The guard
on the browser reference is outside the try; the except clause swallows any
exception, so cleanup is a total state transformer. -/
def cleanup (s : SessionState) : SessionState :=
  match s.browser with
  | none => s
  | some b => (cleanupTry s b).1

/-- Outcome of one initialization attempt in setup_driver.  The two Boolean
fields of the error constructors record how far construction got before the
failure (playwright started, browser launched). -/
inductive AttemptOutcome
  | success
  | pwError (pwStarted : Bool) (browserLaunched : Bool) (msg : String)
  | otherError (pwStarted : Bool) (browserLaunched : Bool) (msg : String)
deriving DecidableEq

/-- Observable effects of setup_driver: number of attempts made, the sleep
durations in seconds between attempts, notification call sites, the final
values of the browser and playwright references, and the returned or raised
result. -/
structure SetupEffects where
  attempts : Nat
  sleeps : List Nat
  notifs : List NotifCall
  browser : Option Unit
  playwright : Option Unit
  result : Except String Unit

/-- The while loop of setup_driver (automation.py lines 47 to 105).  The
first Nat is the current retry_count, the second the remaining loop
iterations (max_retries minus retry_count).  On an engine-level failure the
handler closes and stops whatever was partially constructed and nulls both
references (lines 80 to 90), so after every such failure both references
are none regardless of how far construction got; a non-engine failure
raises immediately without that teardown (lines 101 to 105). -/
def setupLoop (outcomes : Nat → AttemptOutcome) (max_retries retry_delay : Nat) :
    Nat → Nat → SetupEffects
  | _, 0 =>
    { attempts := 0, sleeps := [], notifs := [], browser := none,
      playwright := none,
      result := Except.error "RuntimeError: Unexpected exit from browser setup routine." }
  | retry_count, remaining + 1 =>
    match outcomes retry_count with
    | AttemptOutcome.success =>
      { attempts := 1, sleeps := [], notifs := [], browser := some (),
        playwright := some (), result := Except.ok () }
    | AttemptOutcome.otherError pwStarted browserLaunched m =>
      { attempts := 1, sleeps := [],
        notifs := [{ priority := "high", tags := ["setup", "error"], force := true }],
        browser := if browserLaunched then some () else none,
        playwright := if pwStarted then some () else none,
        result := Except.error m }
    | AttemptOutcome.pwError _ _ m =>
      let rc := retry_count + 1
      if rc < max_retries then
        let rest := setupLoop outcomes max_retries retry_delay rc remaining
        { attempts := rest.attempts + 1,
          sleeps := retry_delay * 2 ^ (rc - 1) :: rest.sleeps,
          notifs := rest.notifs,
          browser := rest.browser, playwright := rest.playwright,
          result := rest.result }
      else
        { attempts := 1, sleeps := [],
          notifs := [{ priority := "high", tags := ["setup", "error"], force := true }],
          browser := none, playwright := none,
          result := Except.error m }

/-- setup_driver (automation.py lines 42 to 109); the code defaults are
max_retries = 3 and retry_delay = 5. -/
def setup_driver (outcomes : Nat → AttemptOutcome) (max_retries retry_delay : Nat) :
    SetupEffects :=
  setupLoop outcomes max_retries retry_delay 0 max_retries

/-- A clock button; disabled is the result of get_attribute on its disabled
attribute (none when the attribute is absent). -/
structure Button where
  disabled : Option String
deriving DecidableEq

/-- The DOM facts the status and actuation code reads from a page:
whether the wait for the clocking-info table times out, the inner texts of
the td cells of each tbody row, whether the wait for the clock buttons
times out, and the clock buttons themselves. -/
structure Page where
  tableTimeout : Bool
  rows : List (List String)
  clockTimeout : Bool
  clockButtons : List Button
deriving DecidableEq

/-- Drop leading whitespace characters from a character list; the worker
of pyStrip below. -/
def dropLeadingWs : List Char → List Char
  | [] => []
  | c :: cs => if c.isWhitespace then dropLeadingWs cs else c :: cs

/-- Python str.strip with no argument: remove leading and trailing
whitespace. -/
def pyStrip (s : String) : String :=
  ((dropLeadingWs (dropLeadingWs s.toList).reverse).reverse).asString

/-- Split of a character list at a separator character; the worker of
pySplit below. -/
def pySplitAux (sep : Char) : List Char → List Char → List (List Char)
  | [], acc => [acc.reverse]
  | c :: cs, acc =>
    if c = sep then acc.reverse :: pySplitAux sep cs []
    else pySplitAux sep cs (c :: acc)

/-- Python str.split with a one-character separator: the empty string
splits into one empty part, and n separators yield n plus one parts. -/
def pySplit (sep : Char) (s : String) : List String :=
  (pySplitAux sep s.toList []).map List.asString

/-- Normalization of the value of the row labelled Current Date
(automation.py lines 266 to 274).  The Python guard is
(label == "Current Date" and value), so an empty value skips the whole
block.  The tuple unpacking day, month, year = value.split(sep) raises
ValueError unless the split yields exactly three parts; the except clause
keeps the original value and logs a warning, returned here as the second
component. -/
def normalizeCurrentDate (value : String) : String × List String :=
  if value = "" then (value, [])
  else
    match pySplit '/' value with
    | [day, month, year] => (year ++ "-" ++ month ++ "-" ++ day, [])
    | _ => (value, ["Could not parse date " ++ value ++ " in expected DD/MM/YYYY format."])

/-- The row loop of get_time_info (automation.py lines 256 to 281): every
row with at least two cells contributes a label to value entry (a later row
with the same label overwrites an earlier one, modelled by consing the new
entry and looking up the first match); a row with fewer cells is skipped
with a warning. -/
def buildTimesAux : List (String × String) × List String →
    List (List String) → List (String × String) × List String
  | acc, [] => acc
  | (ts, ws), cells :: rest =>
    match cells with
    | c0 :: c1 :: _ =>
      let label := pyStrip c0
      let raw := pyStrip c1
      let vw := if label = "Current Date" then normalizeCurrentDate raw else (raw, [])
      buildTimesAux ((label, vw.1) :: ts, ws ++ vw.2) rest
    | _ => buildTimesAux (ts, ws ++ ["row does not have at least 2 cells"]) rest

/-- Accumulated label to value mapping and warnings for a list of rows. -/
def buildTimes (rows : List (List String)) : List (String × String) × List String :=
  buildTimesAux ([], []) rows

/-- Dictionary lookup modelling times.get(key): the entries are consed most
recent first, so the first match is the latest write. -/
def timesGet (ts : List (String × String)) (k : String) : Option String :=
  match ts.find? (fun kv => kv.1 == k) with
  | some kv => some kv.2
  | none => none

/-- The status block of get_time_info (automation.py lines 283 to 308): a
timeout waiting for the clock buttons degrades the status to
Unknown (Timeout); fewer than two buttons degrade it to Unknown; otherwise
the disabled attribute of the first (clock-in) button decides.  No path of
this block raises. -/
def determineStatus (clockTimeout : Bool) (buttons : List Button) : String :=
  if clockTimeout then "Unknown (Timeout)"
  else
    match buttons with
    | b0 :: _ :: _ => if b0.disabled.isSome then "Clocked In" else "Clocked Out"
    | _ => "Unknown"

/-- The two dictionary shapes get_time_info can return: the literal empty
dict of line 252 (no rows found) and the five-key result dict of lines 311
to 317. -/
inductive TimesDict
  | emptyDict
  | snapshot (status : String) (first_clock time_worked time_left date : Option String)
deriving DecidableEq

/-- Python dict.get on the returned dictionary. -/
def TimesDict.get : TimesDict → String → Option String
  | TimesDict.emptyDict, _ => none
  | TimesDict.snapshot s fc tw tl dt, k =>
    if k = "status" then some s
    else if k = "first_clock" then fc
    else if k = "time_worked" then tw
    else if k = "time_left" then tl
    else if k = "date" then dt
    else none

/-- The key list of the JSON object json.dumps produces for each dictionary
shape (insertion order of the Python dict). -/
def dictKeys : TimesDict → List String
  | TimesDict.emptyDict => []
  | TimesDict.snapshot _ _ _ _ _ =>
    ["status", "first_clock", "time_worked", "time_left", "date"]

/-- Result and effects of one get_time_info call. -/
structure GetTimeInfoOut where
  result : Except String TimesDict
  notifs : List NotifCall
  warnings : List String

/-- get_time_info (automation.py lines 229 to 347).  The outer wait for the
clocking-info table is the only modelled raise source: its timeout is
re-raised after a forced notification (lines 330 to 335).  An empty row
list returns the empty dict (line 252).  Otherwise the detail rows are
folded into the mapping, the status is derived by the non-raising status
block, and the five-field result dict is returned. -/
def get_time_info (p : Page) : GetTimeInfoOut :=
  if p.tableTimeout then
    { result := Except.error "PlaywrightTimeoutError: Timeout error while getting time info",
      notifs := [{ priority := "high", tags := ["time", "error", "timeout"], force := true }],
      warnings := [] }
  else
    match p.rows with
    | [] =>
      { result := Except.ok TimesDict.emptyDict, notifs := [],
        warnings := ["No rows found within the clocking info table body."] }
    | r :: rs =>
      let tw := buildTimes (r :: rs)
      { result := Except.ok (TimesDict.snapshot
          (determineStatus p.clockTimeout p.clockButtons)
          (timesGet tw.1 "First clock in") (timesGet tw.1 "All for today")
          (timesGet tw.1 "Time left") (timesGet tw.1 "Current Date")),
        notifs := [], warnings := tw.2 }

/-- Result and effects of one handle_time_tracking call: the indices of the
clicked buttons (0 is the clock-in button, 1 the clock-out button),
notification call sites, and the returned Boolean or raised exception. -/
structure HandleOut where
  clicks : List Nat
  notifs : List NotifCall
  result : Except String Bool

/-- Target derivation of handle_time_tracking (automation.py lines 382 to
398).  The invalid-action branch returns False immediately and the no-op
branches leave target_action as None; both are observably the same
no-click, no-notification return of False, so both map to none here. -/
def deriveTargetAction (action : String) (is_clocked_in : Bool) : Option String :=
  if action = "in" then (if is_clocked_in then none else some "clock_in")
  else if action = "out" then (if is_clocked_in then some "clock_out" else none)
  else if action = "switch" then
    (if is_clocked_in then some "clock_out" else some "clock_in")
  else none

/-- Body of handle_time_tracking up to and including the action attempt
(automation.py lines 354 to 473).  A timeout locating the buttons and a
button count below two both raise.  When a transition is required the
target button is clicked, get_time_info re-reads the page after the click
(modelled by the postClickPage argument), a failure of that re-read is
re-notified by the inner handler (lines 450 to 455) and re-raised, and on
success a non-forced success notification is sent and True returned. -/
def ht_body (action : String) (page postClickPage : Page) : HandleOut :=
  if page.clockTimeout then
    { clicks := [], notifs := [],
      result := Except.error "PlaywrightTimeoutError: Failed to find clock buttons" }
  else
    match page.clockButtons with
    | b0 :: _ :: _ =>
      let is_clocked_in := b0.disabled.isSome
      match deriveTargetAction action is_clocked_in with
      | none => { clicks := [], notifs := [], result := Except.ok false }
      | some target =>
        let buttonIdx := if target = "clock_in" then 0 else 1
        let g := get_time_info postClickPage
        match g.result with
        | Except.error m =>
          { clicks := [buttonIdx],
            notifs := g.notifs ++
              [{ priority := "high", tags := ["clock", "error", "timeout"], force := true }],
            result := Except.error m }
        | Except.ok _ =>
          { clicks := [buttonIdx],
            notifs := g.notifs ++
              [{ priority := "default",
                 tags := if target = "clock_in" then ["clock", "in", "success"]
                         else ["clock", "out", "success"],
                 force := false }],
            result := Except.ok true }
    | _ =>
      { clicks := [], notifs := [],
        result := Except.error "ValueError: Could not find both clock buttons" }

/-- handle_time_tracking (automation.py lines 349 to 481).  The outer
except clause (line 475) catches every exception escaping the body,
including the ones re-raised by the inner handlers, sends one more forced
notification and re-raises. -/
def handle_time_tracking (action : String) (page postClickPage : Page) : HandleOut :=
  let r := ht_body action page postClickPage
  match r.result with
  | Except.ok b => { r with result := Except.ok b }
  | Except.error m =>
    { r with
      notifs := r.notifs ++
        [{ priority := "high", tags := ["clock", "error", "unexpected"], force := true }],
      result := Except.error m }

/-- The facts an orchestrated run depends on: whether browser setup or
login fails, whether notifications are enabled, the page as first read, and
the page as re-read after a clock click. -/
structure World where
  setupFails : Bool
  loginFails : Bool
  notificationsEnabled : Bool
  page : Page
  postClickPage : Page

/-- Result and notification effects of run_status_check. -/
structure StatusRunOut where
  result : Except String TimesDict
  notifs : List NotifCall

/-- run_status_check (automation.py lines 489 to 518): prepare the browser
(setup plus login, whose failures raise after their own forced
notifications), read the time info, and send a non-forced summary
notification only when notifications are enabled. -/
def run_status_check (w : World) : StatusRunOut :=
  if w.setupFails then
    { result := Except.error "BrowserInitError",
      notifs := [{ priority := "high", tags := ["setup", "error"], force := true }] }
  else if w.loginFails then
    { result := Except.error "LoginError",
      notifs := [{ priority := "high", tags := ["login", "error", "timeout"], force := true }] }
  else
    let g := get_time_info w.page
    match g.result with
    | Except.error m => { result := Except.error m, notifs := g.notifs }
    | Except.ok d =>
      { result := Except.ok d,
        notifs := g.notifs ++
          (if w.notificationsEnabled then
            [{ priority := "default", tags := ["time", "check", "success"], force := false }]
          else []) }

/-- Result and effects of run_auto_out: how many logins were performed, the
actions passed to handle_time_tracking, the clicks, the notification call
sites, and the outcome. -/
structure AutoOutRun where
  logins : Nat
  htCalls : List String
  clicks : List Nat
  notifs : List NotifCall
  result : Except String Unit

/-- run_auto_out (automation.py lines 548 to 588): prepare the browser
(one login), read the time info, and only when the status is the literal
string Clocked In and time_left is the literal string 00:00:00 invoke
handle_time_tracking with action out on the same session; every other
combination only logs. -/
def run_auto_out (w : World) : AutoOutRun :=
  if w.setupFails then
    { logins := 0, htCalls := [], clicks := [],
      notifs := [{ priority := "high", tags := ["setup", "error"], force := true }],
      result := Except.error "BrowserInitError" }
  else if w.loginFails then
    { logins := 1, htCalls := [], clicks := [],
      notifs := [{ priority := "high", tags := ["login", "error", "timeout"], force := true }],
      result := Except.error "LoginError" }
  else
    let g := get_time_info w.page
    match g.result with
    | Except.error m =>
      { logins := 1, htCalls := [], clicks := [], notifs := g.notifs,
        result := Except.error m }
    | Except.ok d =>
      if d.get "status" = some "Clocked In" ∧ d.get "time_left" = some "00:00:00" then
        let h := handle_time_tracking "out" w.page w.postClickPage
        { logins := 1, htCalls := ["out"], clicks := h.clicks,
          notifs := g.notifs ++ h.notifs,
          result := match h.result with
                    | Except.ok _ => Except.ok ()
                    | Except.error m => Except.error m }
      else
        { logins := 1, htCalls := [], clicks := [], notifs := g.notifs,
          result := Except.ok () }

/-- The action dispatch of cli.main (cli.py lines 175 to 191): only the
status branch prints to standard output (the json.dumps of the returned
dictionary, one object); the auto-out branch and the in, out and switch
branches call methods that write nothing to standard output. -/
def main_stdout (action : String) (w : World) : List TimesDict :=
  if action = "status" then
    match (run_status_check w).result with
    | Except.ok d => [d]
    | Except.error _ => []
  else []

/-! ## Concrete example inputs used by witnesses and counterexamples -/

/-- A page whose clocking-info table wait times out although the
clock-button pair is present and readable. -/
def pageTableTimeout : Page :=
  { tableTimeout := true, rows := [], clockTimeout := false,
    clockButtons := [{ disabled := none }, { disabled := none }] }

/-- A page with a readable table and one detail row, whose clock-button
wait times out. -/
def pageButtonsTimeout : Page :=
  { tableTimeout := false, rows := [["Time left", "01:00:00"]],
    clockTimeout := true, clockButtons := [] }

/-- A page whose table is present but whose table body holds no rows. -/
def pageNoRows : Page :=
  { tableTimeout := false, rows := [], clockTimeout := false,
    clockButtons := [{ disabled := some "" }, { disabled := none }] }

/-- A fully readable page on which the user is clocked in (first button
disabled) and the time left is exhausted. -/
def pageClockedInZero : Page :=
  { tableTimeout := false,
    rows := [["First clock in", "08:05"], ["Time left", "00:00:00"]],
    clockTimeout := false,
    clockButtons := [{ disabled := some "" }, { disabled := none }] }

/-- A fully readable page on which the user is clocked in with time still
left. -/
def pageClockedInLeft : Page :=
  { tableTimeout := false,
    rows := [["First clock in", "08:05"], ["Time left", "01:30:00"]],
    clockTimeout := false,
    clockButtons := [{ disabled := some "" }, { disabled := none }] }

/-- A fully readable page on which the user is clocked out. -/
def pageClockedOut : Page :=
  { tableTimeout := false,
    rows := [["All for today", "08:00:00"], ["Time left", "00:00:00"]],
    clockTimeout := false,
    clockButtons := [{ disabled := none }, { disabled := none }] }

/-- A world with no setup or login failure whose page has an empty table
body. -/
def worldNoRows : World :=
  { setupFails := false, loginFails := false, notificationsEnabled := false,
    page := pageNoRows, postClickPage := pageNoRows }

/-- A world with no setup or login failure, clocked in with time left
exhausted, whose post-click page shows the user clocked out. -/
def worldAutoOut : World :=
  { setupFails := false, loginFails := false, notificationsEnabled := false,
    page := pageClockedInZero, postClickPage := pageClockedOut }

/-- A world with no setup or login failure, clocked in with time still
left. -/
def worldStillLeft : World :=
  { setupFails := false, loginFails := false, notificationsEnabled := false,
    page := pageClockedInLeft, postClickPage := pageClockedOut }

/-! ## Helper lemmas -/

/-- When the wait for the clocking-info table succeeds, get_time_info
returns a dictionary and sends no notification. -/
theorem get_time_info_ok (p : Page) (h : p.tableTimeout = false) :
    ∃ d, (get_time_info p).result = Except.ok d ∧ (get_time_info p).notifs = [] := by
  unfold get_time_info
  rw [h]
  cases hr : p.rows with
  | nil => exact ⟨TimesDict.emptyDict, rfl, rfl⟩
  | cons r rs => exact ⟨_, rfl, rfl⟩

/-- If get_time_info returns a dictionary, the table wait did not time
out. -/
theorem get_time_info_ok_table (p : Page) (d : TimesDict)
    (h : (get_time_info p).result = Except.ok d) : p.tableTimeout = false := by
  by_contra hc
  have ht : p.tableTimeout = true := by
    cases hval : p.tableTimeout
    · exact absurd hval hc
    · rfl
  unfold get_time_info at h
  rw [ht] at h
  simp at h

/-- If get_time_info returns a dictionary, it sent no notification. -/
theorem get_time_info_ok_notifs (p : Page) (d : TimesDict)
    (h : (get_time_info p).result = Except.ok d) : (get_time_info p).notifs = [] := by
  have ht := get_time_info_ok_table p d h
  obtain ⟨d2, _, hn⟩ := get_time_info_ok p ht
  exact hn

/-! ## C3: notification suppression and the force flag -/

/-- C3 (code bug evidence): the first conjunct proves the true half of the
claim, namely that with notifications disabled and force false no delivery
request is made.  The remaining conjuncts evaluate the code at the failing
input of the claim: in a quiet run the constructor empties the ntfy topic,
so a forced fatal-error send_notification call makes no delivery request,
although the same forced call with the configured topic would deliver;
this contradicts the stated purpose of force, which the docstring of
send_notification also states (sending critical error notifications even
when quiet mode is used). -/
theorem c3_quiet_force_no_delivery :
    (∀ (message priority : String) (tags : List String) (topic : String),
      send_notification message priority tags false topic false = none) ∧
    initNtfyTopic true (some "alerts") = "" ∧
    initNotificationsEnabled true (initNtfyTopic true (some "alerts")) = false ∧
    send_notification "Critical Error" "high" ["fatal"] true
      (initNtfyTopic true (some "alerts"))
      (initNotificationsEnabled true (initNtfyTopic true (some "alerts"))) = none ∧
    send_notification "Critical Error" "high" ["fatal"] true "alerts" false =
      some { message := "Critical Error", priority := "high", tagsHeader := "fatal" } := by
  refine ⟨?_, rfl, rfl, rfl, rfl⟩
  intro message priority tags topic
  unfold send_notification
  by_cases h : topic = ""
  · rw [if_pos h]
  · rw [if_neg h, if_pos ⟨rfl, rfl⟩]

/-! ## C5: date normalization -/

/-- C5 counterexample: the empty string cannot be split into three parts,
and the claim therefore asserts that a warning is recorded for it; but the
Python guard (label equals Current Date and value) skips the whole
normalization block for an empty value, so the value is kept and no
warning is recorded. -/
theorem c5_counterexample :
    ((pySplit '/' "").length ≠ 3) ∧
    (normalizeCurrentDate "").1 = "" ∧
    (normalizeCurrentDate "").2 = [] := by
  exact ⟨by decide, rfl, rfl⟩

/-- C5 (amended): the input 05/03/2024 is transformed to 2024-03-05, and
every NONEMPTY input string that does not split into exactly three parts
on the slash separator is kept unchanged with a warning recorded and no
exception; the empty string is also kept unchanged but records no warning
because the normalization block is skipped entirely. -/
theorem c5_date_normalization :
    normalizeCurrentDate "05/03/2024" = ("2024-03-05", []) ∧
    (∀ v : String, v ≠ "" → (pySplit '/' v).length ≠ 3 →
      normalizeCurrentDate v =
        (v, ["Could not parse date " ++ v ++ " in expected DD/MM/YYYY format."])) := by
  constructor
  · rfl
  · intro v hv hl
    unfold normalizeCurrentDate
    rw [if_neg hv]
    rcases hsp : pySplit '/' v with _ | ⟨a, _ | ⟨b, _ | ⟨c, rest⟩⟩⟩
    · rfl
    · rfl
    · rfl
    · cases rest with
      | nil => exact absurd (by rw [hsp]; rfl) hl
      | cons d4 l => rfl

/-- Witness for c5_date_normalization at the malformed input bad-date. -/
theorem c5_date_normalization_witness :
    normalizeCurrentDate "bad-date" =
      ("bad-date", ["Could not parse date bad-date in expected DD/MM/YYYY format."]) :=
  c5_date_normalization.2 "bad-date" (by decide) (by decide)

/-- pySplit agrees with the Python examples relevant here. -/
theorem pySplit_examples :
    pySplit '/' "05/03/2024" = ["05", "03", "2024"] ∧
    pySplit '/' "" = [""] ∧
    pySplit '/' "bad-date" = ["bad-date"] ∧
    pySplit '/' "a//b" = ["a", "", "b"] := by
  refine ⟨rfl, rfl, rfl, rfl⟩

/-! ## C8: cleanup idempotence and nulling -/

/-- C8 counterexample: on a session whose browser close raises, cleanup
swallows the error but leaves the browser reference set (the assignment to
None comes after the close call inside the try), so the claim that cleanup
always leaves the internal references null is false. -/
theorem c8_counterexample :
    cleanup { browser := some { closeFails := true },
              playwright := some { stopFails := false } } =
      { browser := some { closeFails := true },
        playwright := some { stopFails := false } } ∧
    (cleanup { browser := some { closeFails := true },
               playwright := some { stopFails := false } }).browser ≠ none := by
  exact ⟨rfl, by decide⟩

/-- C8 (amended): cleanup never raises (the except clause swallows every
error, so it is a total state transformer), it is idempotent, it is a
no-op on a null or already released session, it attempts the browser close
whenever the browser reference is non-null, and it nulls the references
exactly on the paths where closing succeeds: when close succeeds the
browser reference is nulled, and the playwright reference is nulled when
it is already null or its stop succeeds; when close fails, or stop fails
after a successful close, the failing reference keeps its value and a
later call retries. -/
theorem c8_cleanup (s : SessionState) :
    cleanup (cleanup s) = cleanup s ∧
    (s.browser = none → cleanup s = s) ∧
    (∀ b, s.browser = some b → cleanup s = (cleanupTry s b).1) ∧
    (∀ b, s.browser = some b → b.closeFails = true → cleanup s = s) ∧
    (∀ b, s.browser = some b → b.closeFails = false →
      (cleanup s).browser = none ∧
      (s.playwright = none → (cleanup s).playwright = none) ∧
      (∀ p, s.playwright = some p → p.stopFails = false →
        (cleanup s).playwright = none) ∧
      (∀ p, s.playwright = some p → p.stopFails = true →
        (cleanup s).playwright = some p)) := by
  obtain ⟨br, pw⟩ := s
  rcases br with _ | ⟨⟨cf⟩⟩
  · refine ⟨rfl, fun _ => rfl, ?_, ?_, ?_⟩ <;> intro b hb <;> simp at hb
  · rcases pw with _ | ⟨⟨sf⟩⟩
    · cases cf
      · refine ⟨rfl, ?_, ?_, ?_, ?_⟩
        · intro h; simp at h
        · intro b hb; injection hb with h; subst h; rfl
        · intro b hb hcf; injection hb with h; subst h; simp at hcf
        · intro b hb _
          injection hb with h; subst h
          exact ⟨rfl, fun _ => rfl, fun p hp => by simp at hp,
                 fun p hp => by simp at hp⟩
      · refine ⟨rfl, ?_, ?_, ?_, ?_⟩
        · intro h; simp at h
        · intro b hb; injection hb with h; subst h; rfl
        · intro b hb _; injection hb with h; subst h; rfl
        · intro b hb hcf; injection hb with h; subst h; simp at hcf
    · cases cf
      · cases sf
        · refine ⟨rfl, ?_, ?_, ?_, ?_⟩
          · intro h; simp at h
          · intro b hb; injection hb with h; subst h; rfl
          · intro b hb hcf; injection hb with h; subst h; simp at hcf
          · intro b hb _
            injection hb with h; subst h
            refine ⟨rfl, fun h => by simp at h, ?_, ?_⟩
            · intro p hp _; injection hp with h2; subst h2; rfl
            · intro p hp hsf; injection hp with h2; subst h2; simp at hsf
        · refine ⟨rfl, ?_, ?_, ?_, ?_⟩
          · intro h; simp at h
          · intro b hb; injection hb with h; subst h; rfl
          · intro b hb hcf; injection hb with h; subst h; simp at hcf
          · intro b hb _
            injection hb with h; subst h
            refine ⟨rfl, fun h => by simp at h, ?_, ?_⟩
            · intro p hp hsf; injection hp with h2; subst h2; simp at hsf
            · intro p hp _; injection hp with h2; subst h2; rfl
      · cases sf
        · refine ⟨rfl, ?_, ?_, ?_, ?_⟩
          · intro h; simp at h
          · intro b hb; injection hb with h; subst h; rfl
          · intro b hb _; injection hb with h; subst h; rfl
          · intro b hb hcf; injection hb with h; subst h; simp at hcf
        · refine ⟨rfl, ?_, ?_, ?_, ?_⟩
          · intro h; simp at h
          · intro b hb; injection hb with h; subst h; rfl
          · intro b hb _; injection hb with h; subst h; rfl
          · intro b hb hcf; injection hb with h; subst h; simp at hcf

/-- Witness for c8_cleanup on a session whose close and stop both succeed:
repeated cleanup is a no-op and both references end up null. -/
theorem c8_cleanup_witness :
    cleanup (cleanup { browser := some { closeFails := false },
                       playwright := some { stopFails := false } }) =
      cleanup { browser := some { closeFails := false },
                playwright := some { stopFails := false } } ∧
    (cleanup { browser := some { closeFails := false },
               playwright := some { stopFails := false } }).browser = none ∧
    (cleanup { browser := some { closeFails := false },
               playwright := some { stopFails := false } }).playwright = none :=
  ⟨(c8_cleanup { browser := some { closeFails := false },
                 playwright := some { stopFails := false } }).1,
   ((c8_cleanup { browser := some { closeFails := false },
                  playwright := some { stopFails := false } }).2.2.2.2
      { closeFails := false } rfl rfl).1,
   ((c8_cleanup { browser := some { closeFails := false },
                  playwright := some { stopFails := false } }).2.2.2.2
      { closeFails := false } rfl rfl).2.2.1 { stopFails := false } rfl rfl⟩

/-! ## C4: status derivation -/

/-- C4: with the clock-button wait succeeding and at least two buttons
found, the derived status is Clocked In exactly when the first button
carries a disabled attribute and Clocked Out otherwise; with fewer than
two buttons the status is Unknown; and the status sub-step never raises,
so get_time_info still returns a dictionary whenever the table wait
succeeds, whatever the buttons look like. -/
theorem c4_status_derivation (p : Page) (b0 b1 : Button) (rest : List Button) :
    (determineStatus false (b0 :: b1 :: rest) = "Clocked In" ↔
      b0.disabled.isSome = true) ∧
    (determineStatus false (b0 :: b1 :: rest) = "Clocked Out" ↔
      b0.disabled.isSome = false) ∧
    (∀ buttons : List Button, buttons.length < 2 →
      determineStatus false buttons = "Unknown") ∧
    (p.tableTimeout = false → (get_time_info p).result.isOk = true) := by
  refine ⟨?_, ?_, ?_, ?_⟩
  · cases hd : b0.disabled.isSome <;> simp [determineStatus, hd]
  · cases hd : b0.disabled.isSome <;> simp [determineStatus, hd]
  · intro buttons hlen
    rcases buttons with _ | ⟨b, _ | ⟨b2, bs⟩⟩
    · rfl
    · rfl
    · simp only [List.length_cons] at hlen; omega
  · intro ht
    obtain ⟨d, hd, _⟩ := get_time_info_ok p ht
    rw [hd]
    rfl

/-- Witness for c4_status_derivation at concrete buttons and a concrete
page. -/
theorem c4_status_derivation_witness :
    determineStatus false [{ disabled := some "" }, { disabled := none }] = "Clocked In" ∧
    determineStatus false [{ disabled := none }] = "Unknown" ∧
    (get_time_info pageNoRows).result.isOk = true :=
  ⟨(c4_status_derivation pageNoRows
      { disabled := some "" } { disabled := none } []).1.mpr rfl,
   (c4_status_derivation pageNoRows
      { disabled := some "" } { disabled := none } []).2.2.1
      [{ disabled := none }] (by decide),
   (c4_status_derivation pageNoRows
      { disabled := some "" } { disabled := none } []).2.2.2 rfl⟩

/-! ## C2: when the status read fails -/

/-- C2 counterexample: a page whose clocking-info table wait times out
while the clock-button pair is present and readable; get_time_info raises,
so the claim that it fails only when the clock-button pair is unreadable
is false. -/
theorem c2_counterexample :
    (∃ m, (get_time_info pageTableTimeout).result = Except.error m) ∧
    pageTableTimeout.clockTimeout = false ∧
    pageTableTimeout.clockButtons.length = 2 := by
  exact ⟨⟨_, rfl⟩, rfl, rfl⟩

/-- C2 (amended): get_time_info raises exactly when the wait for the
clocking-info table times out; an unreadable clock-button pair does not
make the read fail but degrades the status field to Unknown (Timeout), and
missing or malformed detail rows never make the read fail. -/
theorem c2_read_failure_iff_table_timeout (p : Page) :
    ((get_time_info p).result.isOk = true ↔ p.tableTimeout = false) ∧
    (p.tableTimeout = false → p.clockTimeout = true → ∀ r rs, p.rows = r :: rs →
      ∃ d, (get_time_info p).result = Except.ok d ∧
        d.get "status" = some "Unknown (Timeout)") := by
  constructor
  · cases ht : p.tableTimeout
    · obtain ⟨d, hd, _⟩ := get_time_info_ok p ht
      rw [hd]
      simp [Except.isOk, Except.toBool, ht]
    · unfold get_time_info
      rw [ht]
      simp [Except.isOk, Except.toBool]
  · intro ht hct r rs hr
    have hres : (get_time_info p).result = Except.ok (TimesDict.snapshot "Unknown (Timeout)"
        (timesGet (buildTimes (r :: rs)).1 "First clock in")
        (timesGet (buildTimes (r :: rs)).1 "All for today")
        (timesGet (buildTimes (r :: rs)).1 "Time left")
        (timesGet (buildTimes (r :: rs)).1 "Current Date")) := by
      simp [get_time_info, ht, hr, determineStatus, hct]
    exact ⟨_, hres, rfl⟩

/-- Witness for c2_read_failure_iff_table_timeout at a concrete page with
a readable table, one detail row and a timed-out clock-button wait. -/
theorem c2_read_failure_iff_table_timeout_witness :
    ((get_time_info pageButtonsTimeout).result.isOk = true ↔
      pageButtonsTimeout.tableTimeout = false) ∧
    (∃ d, (get_time_info pageButtonsTimeout).result = Except.ok d ∧
      d.get "status" = some "Unknown (Timeout)") :=
  ⟨(c2_read_failure_iff_table_timeout pageButtonsTimeout).1,
   (c2_read_failure_iff_table_timeout pageButtonsTimeout).2 rfl rfl
      ["Time left", "01:00:00"] [] rfl⟩

/-! ## C9: standard output of the status operation -/

/-- The dictionary a successful get_time_info returns is the empty dict
exactly when the table body had no rows; otherwise it has the five result
keys. -/
theorem get_time_info_shape (p : Page) (d : TimesDict)
    (h : (get_time_info p).result = Except.ok d) :
    (p.rows = [] ∧ d = TimesDict.emptyDict) ∨
    (p.rows ≠ [] ∧ dictKeys d =
      ["status", "first_clock", "time_worked", "time_left", "date"]) := by
  have ht := get_time_info_ok_table p d h
  cases hr : p.rows with
  | nil =>
    have hx : (get_time_info p).result = Except.ok TimesDict.emptyDict := by
      unfold get_time_info
      rw [ht, hr]
      rfl
    rw [hx] at h
    injection h with h2
    exact Or.inl ⟨rfl, h2.symm⟩
  | cons r rs =>
    have hx : (get_time_info p).result = Except.ok (TimesDict.snapshot
        (determineStatus p.clockTimeout p.clockButtons)
        (timesGet (buildTimes (r :: rs)).1 "First clock in")
        (timesGet (buildTimes (r :: rs)).1 "All for today")
        (timesGet (buildTimes (r :: rs)).1 "Time left")
        (timesGet (buildTimes (r :: rs)).1 "Current Date")) := by
      unfold get_time_info
      rw [ht, hr]
      rfl
    rw [hx] at h
    injection h with h2
    refine Or.inr ⟨by simp, ?_⟩
    rw [← h2]
    rfl

/-- With setup and login succeeding, run_status_check returns exactly what
get_time_info returns. -/
theorem run_status_check_result (w : World) (hs : w.setupFails = false)
    (hl : w.loginFails = false) :
    (run_status_check w).result = (get_time_info w.page).result := by
  unfold run_status_check
  rw [hs, hl]
  cases hg : (get_time_info w.page).result <;> simp [hg]

/-- C9 counterexample: a successful status run on a page whose table body
has no rows writes one JSON object, but that object is empty, not an
object with the five documented keys. -/
theorem c9_counterexample :
    (run_status_check worldNoRows).result = Except.ok TimesDict.emptyDict ∧
    main_stdout "status" worldNoRows = [TimesDict.emptyDict] ∧
    dictKeys TimesDict.emptyDict = [] := by
  exact ⟨rfl, rfl, rfl⟩

/-- C9 (amended): for every successful status run exactly one JSON object
is written to standard output; it has the keys status, first_clock,
time_worked, time_left, date whenever the status table body had at least
one row, and it is the empty object when the table body had no rows; no
other action writes anything to standard output. -/
theorem c9_status_stdout (w : World) (a : String) (d : TimesDict) :
    (w.setupFails = false → w.loginFails = false →
      (run_status_check w).result = Except.ok d →
      main_stdout "status" w = [d] ∧
      (w.page.rows ≠ [] →
        dictKeys d = ["status", "first_clock", "time_worked", "time_left", "date"]) ∧
      (w.page.rows = [] → d = TimesDict.emptyDict)) ∧
    (a ≠ "status" → main_stdout a w = []) := by
  constructor
  · intro hs hl hres
    have hg : (get_time_info w.page).result = Except.ok d := by
      rw [← run_status_check_result w hs hl]
      exact hres
    have hshape := get_time_info_shape w.page d hg
    refine ⟨?_, ?_, ?_⟩
    · simp [main_stdout, hres]
    · intro hnr
      rcases hshape with ⟨hr, _⟩ | ⟨_, hk⟩
      · exact absurd hr hnr
      · exact hk
    · intro hr
      rcases hshape with ⟨_, hd⟩ | ⟨hnr, _⟩
      · exact hd
      · exact absurd hr hnr
  · intro ha
    simp [main_stdout, ha]

/-- Witness for c9_status_stdout: a concrete successful status run prints
the five-key object, and the auto-out action prints nothing. -/
theorem c9_status_stdout_witness :
    main_stdout "status" worldAutoOut =
      [TimesDict.snapshot "Clocked In" (some "08:05") none (some "00:00:00") none] ∧
    dictKeys (TimesDict.snapshot "Clocked In" (some "08:05") none (some "00:00:00") none) =
      ["status", "first_clock", "time_worked", "time_left", "date"] ∧
    main_stdout "auto-out" worldAutoOut = [] :=
  ⟨((c9_status_stdout worldAutoOut "auto-out"
      (TimesDict.snapshot "Clocked In" (some "08:05") none (some "00:00:00") none)).1
      rfl rfl rfl).1,
   ((c9_status_stdout worldAutoOut "auto-out"
      (TimesDict.snapshot "Clocked In" (some "08:05") none (some "00:00:00") none)).1
      rfl rfl rfl).2.1 (by decide),
   (c9_status_stdout worldAutoOut "auto-out"
      (TimesDict.snapshot "Clocked In" (some "08:05") none (some "00:00:00") none)).2
      (by decide)⟩

/-! ## C6: auto-out -/

/-- C6: after a successful prepare and read, run_auto_out performs exactly
one login, invokes the clock actuator with action out exactly when the
snapshot status is the string Clocked In and the time left is the literal
string 00:00:00, and in every other combination performs no actuation, no
click and no notification. -/
theorem c6_auto_out (w : World) (d : TimesDict)
    (hs : w.setupFails = false) (hl : w.loginFails = false)
    (hg : (get_time_info w.page).result = Except.ok d) :
    (run_auto_out w).logins = 1 ∧
    ((run_auto_out w).htCalls = ["out"] ↔
      (d.get "status" = some "Clocked In" ∧ d.get "time_left" = some "00:00:00")) ∧
    (¬(d.get "status" = some "Clocked In" ∧ d.get "time_left" = some "00:00:00") →
      (run_auto_out w).htCalls = [] ∧ (run_auto_out w).clicks = [] ∧
      (run_auto_out w).notifs = []) := by
  have hn := get_time_info_ok_notifs w.page d hg
  refine ⟨?_, ?_, ?_⟩
  · by_cases hcond : d.get "status" = some "Clocked In" ∧
        d.get "time_left" = some "00:00:00" <;>
      simp [run_auto_out, hs, hl, hg, hcond]
  · by_cases hcond : d.get "status" = some "Clocked In" ∧
        d.get "time_left" = some "00:00:00" <;>
      simp [run_auto_out, hs, hl, hg, hcond]
  · intro hcond
    simp [run_auto_out, hs, hl, hg, hcond, hn]

/-- Witness for c6_auto_out: with status Clocked In and time left
00:00:00 the actuator is invoked with out after a single login; with time
still left nothing is actuated and no notification is sent. -/
theorem c6_auto_out_witness :
    (run_auto_out worldAutoOut).logins = 1 ∧
    (run_auto_out worldAutoOut).htCalls = ["out"] ∧
    (run_auto_out worldStillLeft).htCalls = [] ∧
    (run_auto_out worldStillLeft).clicks = [] ∧
    (run_auto_out worldStillLeft).notifs = [] := by
  have hA := c6_auto_out worldAutoOut
    (TimesDict.snapshot "Clocked In" (some "08:05") none (some "00:00:00") none)
    rfl rfl rfl
  have hB := (c6_auto_out worldStillLeft
    (TimesDict.snapshot "Clocked In" (some "08:05") none (some "01:30:00") none)
    rfl rfl rfl).2.2 (by decide)
  exact ⟨hA.1, hA.2.1.mpr ⟨rfl, rfl⟩, hB.1, hB.2.1, hB.2.2⟩

/-! ## C1: the transition table of handle_time_tracking -/

/-- C1: with the clock buttons readable (no wait timeout, at least two
buttons) and the post-click re-read succeeding, handle_time_tracking
follows the six-row transition table: action in clocks in only when not
clocked in, action out clocks out only when clocked in, switch always
toggles; it returns True exactly when a transition was performed, and in
the two no-op rows it returns False with no click and no notification. -/
theorem c1_transition_table (page postClickPage : Page) (b0 b1 : Button)
    (bs : List Button)
    (hb : page.clockButtons = b0 :: b1 :: bs)
    (hct : page.clockTimeout = false)
    (hpt : postClickPage.tableTimeout = false) :
    (b0.disabled.isSome = true →
      (handle_time_tracking "in" page postClickPage).result = Except.ok false ∧
      (handle_time_tracking "in" page postClickPage).clicks = [] ∧
      (handle_time_tracking "in" page postClickPage).notifs = [] ∧
      (handle_time_tracking "out" page postClickPage).result = Except.ok true ∧
      (handle_time_tracking "out" page postClickPage).clicks = [1] ∧
      (handle_time_tracking "switch" page postClickPage).result = Except.ok true ∧
      (handle_time_tracking "switch" page postClickPage).clicks = [1]) ∧
    (b0.disabled.isSome = false →
      (handle_time_tracking "in" page postClickPage).result = Except.ok true ∧
      (handle_time_tracking "in" page postClickPage).clicks = [0] ∧
      (handle_time_tracking "out" page postClickPage).result = Except.ok false ∧
      (handle_time_tracking "out" page postClickPage).clicks = [] ∧
      (handle_time_tracking "out" page postClickPage).notifs = [] ∧
      (handle_time_tracking "switch" page postClickPage).result = Except.ok true ∧
      (handle_time_tracking "switch" page postClickPage).clicks = [0]) := by
  obtain ⟨d, hd, hn⟩ := get_time_info_ok postClickPage hpt
  constructor <;> intro hdis <;>
    refine ⟨?_, ?_, ?_, ?_, ?_, ?_, ?_⟩ <;>
    simp [handle_time_tracking, ht_body, deriveTargetAction, hb, hct, hdis, hd, hn]

/-- Witness for c1_transition_table on a clocked-in page: action in is a
silent no-op and action out clicks the clock-out button and returns
True. -/
theorem c1_transition_table_witness :
    (handle_time_tracking "in" pageClockedInZero pageClockedOut).result = Except.ok false ∧
    (handle_time_tracking "in" pageClockedInZero pageClockedOut).clicks = [] ∧
    (handle_time_tracking "in" pageClockedInZero pageClockedOut).notifs = [] ∧
    (handle_time_tracking "out" pageClockedInZero pageClockedOut).result = Except.ok true ∧
    (handle_time_tracking "out" pageClockedInZero pageClockedOut).clicks = [1] := by
  have h := (c1_transition_table pageClockedInZero pageClockedOut
    { disabled := some "" } { disabled := none } [] rfl rfl rfl).1 rfl
  exact ⟨h.1, h.2.1, h.2.2.1, h.2.2.2.1, h.2.2.2.2.1⟩

/-! ## C10: invalid actions are tolerated no-ops -/

/-- C10: with the clock buttons readable, any action outside in, out and
switch makes handle_time_tracking return False without raising, without
clicking and without notifying. -/
theorem c10_invalid_action (action : String) (page postClickPage : Page)
    (b0 b1 : Button) (bs : List Button)
    (hb : page.clockButtons = b0 :: b1 :: bs)
    (hct : page.clockTimeout = false)
    (h1 : action ≠ "in") (h2 : action ≠ "out") (h3 : action ≠ "switch") :
    (handle_time_tracking action page postClickPage).result = Except.ok false ∧
    (handle_time_tracking action page postClickPage).clicks = [] ∧
    (handle_time_tracking action page postClickPage).notifs = [] := by
  refine ⟨?_, ?_, ?_⟩ <;>
    simp [handle_time_tracking, ht_body, deriveTargetAction, hb, hct, h1, h2, h3]

/-- Witness for c10_invalid_action at the concrete invalid action
bogus. -/
theorem c10_invalid_action_witness :
    (handle_time_tracking "bogus" pageClockedInZero pageClockedOut).result = Except.ok false ∧
    (handle_time_tracking "bogus" pageClockedInZero pageClockedOut).clicks = [] ∧
    (handle_time_tracking "bogus" pageClockedInZero pageClockedOut).notifs = [] :=
  c10_invalid_action "bogus" pageClockedInZero pageClockedOut
    { disabled := some "" } { disabled := none } [] rfl rfl
    (by decide) (by decide) (by decide)

/-! ## C7: browser initialization retries -/

/-- The setup loop never makes more attempts than it has remaining
iterations. -/
theorem setupLoop_attempts_le (outcomes : Nat → AttemptOutcome) (maxR d : Nat) :
    ∀ remaining rc, (setupLoop outcomes maxR d rc remaining).attempts ≤ remaining := by
  intro remaining
  induction remaining with
  | zero => intro rc; simp [setupLoop]
  | succ n ih =>
    intro rc
    cases ho : outcomes rc with
    | success => simp only [setupLoop, ho]; omega
    | otherError a b m => simp only [setupLoop, ho]; omega
    | pwError a b m =>
      by_cases hlt : rc + 1 < maxR
      · have := ih (rc + 1)
        simp only [setupLoop, ho, hlt, if_true]
        omega
      · simp only [setupLoop, ho, hlt, if_false]
        omega

/-- The sleeps of the setup loop always follow the exponential backoff
schedule: starting from retry count rc they are d times 2 to the rc, then
d times 2 to the rc plus one, and so on. -/
theorem setupLoop_sleeps_pattern (outcomes : Nat → AttemptOutcome) (maxR d : Nat) :
    ∀ remaining rc, ∃ k, (setupLoop outcomes maxR d rc remaining).sleeps =
      (List.range' rc k).map (fun i => d * 2 ^ i) := by
  intro remaining
  induction remaining with
  | zero => intro rc; exact ⟨0, rfl⟩
  | succ n ih =>
    intro rc
    cases ho : outcomes rc with
    | success => exact ⟨0, by simp [setupLoop, ho]⟩
    | otherError a b m => exact ⟨0, by simp [setupLoop, ho]⟩
    | pwError a b m =>
      by_cases hlt : rc + 1 < maxR
      · obtain ⟨k, hk⟩ := ih (rc + 1)
        refine ⟨k + 1, ?_⟩
        simp only [setupLoop, ho, hlt, if_true, Nat.add_sub_cancel]
        rw [List.range'_succ, List.map_cons, hk]
      · exact ⟨0, by simp [setupLoop, ho, hlt]⟩

/-- One unfolding step of the setup loop on an engine-level failure with
retries remaining: one more attempt, one backoff sleep of d times 2 to
the rc, and the rest from the next iteration. -/
theorem setupLoop_pwError_step (outcomes : Nat → AttemptOutcome) (maxR d rc n : Nat)
    (a b : Bool) (m : String)
    (ho : outcomes rc = AttemptOutcome.pwError a b m) (hlt : rc + 1 < maxR) :
    setupLoop outcomes maxR d rc (n + 1) =
      { attempts := (setupLoop outcomes maxR d (rc + 1) n).attempts + 1,
        sleeps := d * 2 ^ rc :: (setupLoop outcomes maxR d (rc + 1) n).sleeps,
        notifs := (setupLoop outcomes maxR d (rc + 1) n).notifs,
        browser := (setupLoop outcomes maxR d (rc + 1) n).browser,
        playwright := (setupLoop outcomes maxR d (rc + 1) n).playwright,
        result := (setupLoop outcomes maxR d (rc + 1) n).result } := by
  simp only [setupLoop, ho, hlt, if_true, Nat.add_sub_cancel]

/-- When every attempt from retry count rc onward fails with an
engine-level error and exactly n plus one iterations remain until
max_retries, the setup loop runs all of them, sleeps with exponential
backoff between consecutive attempts, tears both references down, sends
one forced high-priority notification, and raises the last failure. -/
theorem setupLoop_all_fail (outcomes : Nat → AttemptOutcome) (maxR d : Nat)
    (pwS brS : Nat → Bool) (msgF : Nat → String) :
    ∀ n rc, rc + n + 1 = maxR →
    (∀ k, rc ≤ k → k < maxR →
      outcomes k = AttemptOutcome.pwError (pwS k) (brS k) (msgF k)) →
    (setupLoop outcomes maxR d rc (n + 1)).attempts = n + 1 ∧
    (setupLoop outcomes maxR d rc (n + 1)).sleeps =
      (List.range' rc n).map (fun i => d * 2 ^ i) ∧
    (setupLoop outcomes maxR d rc (n + 1)).notifs =
      [{ priority := "high", tags := ["setup", "error"], force := true }] ∧
    (setupLoop outcomes maxR d rc (n + 1)).browser = none ∧
    (setupLoop outcomes maxR d rc (n + 1)).playwright = none ∧
    (setupLoop outcomes maxR d rc (n + 1)).result = Except.error (msgF (maxR - 1)) := by
  intro n
  induction n with
  | zero =>
    intro rc hrc hfail
    have ho := hfail rc (Nat.le_refl rc) (by omega)
    have hnlt : ¬ (rc + 1 < maxR) := by omega
    have hrc1 : rc = maxR - 1 := by omega
    subst hrc1
    refine ⟨?_, ?_, ?_, ?_, ?_, ?_⟩ <;>
      simp [setupLoop, ho, hnlt]
  | succ k ihk =>
    intro rc hrc hfail
    have ho := hfail rc (Nat.le_refl rc) (by omega)
    have hlt : rc + 1 < maxR := by omega
    obtain ⟨ha, hsl, hno, hbr, hpw, hres⟩ :=
      ihk (rc + 1) (by omega) (fun j hj1 hj2 => hfail j (by omega) hj2)
    rw [setupLoop_pwError_step outcomes maxR d rc (k + 1) (pwS rc) (brS rc)
      (msgF rc) ho hlt]
    refine ⟨?_, ?_, hno, hbr, hpw, hres⟩
    · simp only [ha]
    · rw [List.range'_succ, List.map_cons, hsl]

/-- C7: setup_driver makes at most max_retries attempts and its sleeps
always follow the exponential backoff schedule d times 2 to the k minus
one after the k-th failure; when every attempt fails at the engine level
it makes exactly max_retries attempts, sleeps the full backoff schedule,
tears the partially constructed references down, sends one forced
high-priority notification, and propagates the last underlying failure. -/
theorem c7_setup_retries (outcomes : Nat → AttemptOutcome) (maxR d : Nat)
    (pwS brS : Nat → Bool) (msgF : Nat → String) :
    (setup_driver outcomes maxR d).attempts ≤ maxR ∧
    (∃ k, (setup_driver outcomes maxR d).sleeps =
      (List.range k).map (fun i => d * 2 ^ i)) ∧
    (0 < maxR →
      (∀ j, j < maxR → outcomes j = AttemptOutcome.pwError (pwS j) (brS j) (msgF j)) →
      (setup_driver outcomes maxR d).attempts = maxR ∧
      (setup_driver outcomes maxR d).sleeps =
        (List.range (maxR - 1)).map (fun i => d * 2 ^ i) ∧
      (setup_driver outcomes maxR d).notifs =
        [{ priority := "high", tags := ["setup", "error"], force := true }] ∧
      (setup_driver outcomes maxR d).browser = none ∧
      (setup_driver outcomes maxR d).playwright = none ∧
      (setup_driver outcomes maxR d).result = Except.error (msgF (maxR - 1))) := by
  unfold setup_driver
  refine ⟨setupLoop_attempts_le outcomes maxR d maxR 0, ?_, ?_⟩
  · obtain ⟨k, hk⟩ := setupLoop_sleeps_pattern outcomes maxR d maxR 0
    refine ⟨k, ?_⟩
    rw [List.range_eq_range']
    exact hk
  · intro hpos hfail
    have h := setupLoop_all_fail outcomes maxR d pwS brS msgF (maxR - 1) 0
      (by omega) (fun k _ hk2 => hfail k hk2)
    have hm : maxR - 1 + 1 = maxR := by omega
    rw [hm] at h
    obtain ⟨ha, hsl, hno, hbr, hpw, hres⟩ := h
    refine ⟨ha, ?_, hno, hbr, hpw, hres⟩
    rw [List.range_eq_range']
    exact hsl

/-- Witness for c7_setup_retries: with every attempt failing, the default
configuration of three retries and a five second base delay makes three
attempts, sleeps five then ten seconds, notifies once with force, and
raises the last failure. -/
theorem c7_setup_retries_witness :
    (setup_driver (fun _ => AttemptOutcome.pwError true true "boom") 3 5).attempts = 3 ∧
    (setup_driver (fun _ => AttemptOutcome.pwError true true "boom") 3 5).sleeps = [5, 10] ∧
    (setup_driver (fun _ => AttemptOutcome.pwError true true "boom") 3 5).notifs =
      [{ priority := "high", tags := ["setup", "error"], force := true }] ∧
    (setup_driver (fun _ => AttemptOutcome.pwError true true "boom") 3 5).browser = none ∧
    (setup_driver (fun _ => AttemptOutcome.pwError true true "boom") 3 5).result =
      Except.error "boom" ∧
    (setup_driver (fun _ => AttemptOutcome.pwError true true "boom") 3 5).attempts ≤ 3 := by
  have h := c7_setup_retries (fun _ => AttemptOutcome.pwError true true "boom") 3 5
    (fun _ => true) (fun _ => true) (fun _ => "boom")
  have h2 := h.2.2 (by decide) (fun j _ => rfl)
  refine ⟨h2.1, ?_, h2.2.2.1, h2.2.2.2.1, h2.2.2.2.2.2, h.1⟩
  rw [h2.2.1]
  decide
